import Mathlib

/-!
Verification of `tools/convert_to_onnx.py` (PPG-PWA repository).

The script defines a placeholder architecture `SimplePPGModel`
(Conv1d(1,16,3) followed by Linear(16*118, 2)), and a function
`convert_pytorch(pth_path, onnx_path)` that instantiates the model, loads a
checkpoint into it, switches to eval mode, builds a dummy input of shape
(1,1,120) and calls `torch.onnx.export` with input name "input_signal",
output name "sbp_dbp" and dynamic axis 0 ("batch_size") on both.  A
`__main__` block prints a usage line when fewer than two positional
arguments are given and otherwise calls `convert_pytorch` on argv[1] and
argv[2].

We embed the script shallowly: tensor contents are irrelevant to every
claim, so tensors are represented by their shapes; the PyTorch framework
calls (`torch.load`, `load_state_dict`, `torch.onnx.export`) are external
collaborators and are modelled from the spec, as marked on their
definitions; the observable behaviour of a run (prints, file reads and
writes, the produced artifact, success or uncaught error) is returned as an
explicit outcome value.
-/

set_option linter.unusedVariables false

/-- A tensor shape: the list of its dimension sizes. -/
abbrev Shape := List Nat

/-- A state dict as far as this script can observe it: an ordered mapping
from parameter names to tensor shapes (the spec: "an opaque mapping from
layer names to numeric tensors ... not inspected or validated"). -/
abbrev StateDict := List (String × Shape)

/-- Hyper-parameters of a `nn.Conv1d` layer as used by the script
(stride 1, no padding). -/
structure Conv1dParams where
  inChannels : Nat
  outChannels : Nat
  kernelSize : Nat
deriving DecidableEq, Repr

/-- Hyper-parameters of a `nn.Linear` layer. -/
structure LinearParams where
  inFeatures : Nat
  outFeatures : Nat
deriving DecidableEq, Repr

/-- `self.conv = nn.Conv1d(1, 16, 3)` from `SimplePPGModel.__init__`. -/
def simplePPGConv : Conv1dParams := ⟨1, 16, 3⟩

/-- `self.fc = nn.Linear(16 * 118, 2)` from `SimplePPGModel.__init__`. -/
def simplePPGFc : LinearParams := ⟨16 * 118, 2⟩

/-- The parameter tensors (names and shapes) of `SimplePPGModel`, in the
order PyTorch registers them: `conv.weight` is
(out_channels, in_channels, kernel), `conv.bias` is (out_channels),
`fc.weight` is (out_features, in_features), `fc.bias` is (out_features). -/
def simplePPGStateDictShapes : StateDict :=
  [("conv.weight", [16, 1, 3]), ("conv.bias", [16]),
   ("fc.weight", [2, 16 * 118]), ("fc.bias", [2])]

/-- Shape semantics of `nn.Conv1d` with stride 1 and no padding: a
(batch, channels, length) input is accepted when the channel count matches
and the length is at least the kernel size, producing
(batch, out_channels, length - kernel + 1); any other input errors. -/
def conv1dShape (p : Conv1dParams) : Shape → Option Shape
  | [b, c, l] =>
    if c = p.inChannels ∧ p.kernelSize ≤ l then
      some [b, p.outChannels, l - p.kernelSize + 1]
    else
      none
  | _ => none

/-- Shape semantics of `nn.Linear`: a (batch, features) input is accepted
when the feature count matches, producing (batch, out_features). -/
def linearShape (p : LinearParams) : Shape → Option Shape
  | [b, f] => if f = p.inFeatures then some [b, p.outFeatures] else none
  | _ => none

/-- Shape semantics of `SimplePPGModel.forward`:
`self.fc(self.conv(x).view(x.size(0), -1))`.  The conv output
(b, c, l) is flattened by `view(x.size(0), -1)` to (b, c*l) and fed to the
linear layer. -/
def simplePPGForwardShape (s : Shape) : Option Shape :=
  match conv1dShape simplePPGConv s with
  | some [b, c, l] => linearShape simplePPGFc [b, c * l]
  | _ => none

/-- One declared dimension of an exported tensor slot: either fixed to a
concrete size or dynamic with a label. -/
inductive Dim where
  | fixed : Nat → Dim
  | dyn : String → Dim
deriving DecidableEq, Repr

/-- The exported graph artifact, as the spec describes it: the traced
graph's named input and output tensor slots with their declared
dimensions. -/
structure ExportedGraph where
  inputName : String
  outputName : String
  inputDims : List Dim
  outputDims : List Dim
deriving DecidableEq, Repr

/-- Turn a traced concrete shape into declared dimensions, making the axes
listed in `axes` dynamic (with their labels) and keeping the rest fixed. -/
def applyDynAxes (axes : List (Nat × String)) (s : Shape) : List Dim :=
  s.enum.map (fun p =>
    match axes.lookup p.1 with
    | some label => Dim.dyn label
    | none => Dim.fixed p.2)

/-- Modelled from the spec: `torch.onnx.export` is an external framework
routine (the spec's non-goals: "the internal workings of the export routine
itself — that routine is an external collaborator supplied by the numerical
computing framework").  Per the spec it traces the model's computation on
the representative input — whose "values are arbitrary (random) and
discarded — only its shape and dtype matter" — and records the named input
and output tensor slots "with the batch dimension marked as variable-length
on both"; it fails when "the representative input's non-batch dimensions
must match what the model architecture expects" is violated. -/
def onnxExport (forward : Shape → Option Shape) (dummyShape : Shape)
    (dummyValues : List Int) (inputName outputName : String)
    (dynAxes : List (String × List (Nat × String))) : Option ExportedGraph :=
  match forward dummyShape with
  | none => none
  | some outShape =>
    some { inputName := inputName
           outputName := outputName
           inputDims := applyDynAxes ((dynAxes.lookup inputName).getD []) dummyShape
           outputDims := applyDynAxes ((dynAxes.lookup outputName).getD []) outShape }

/-- The `dynamic_axes` argument of the export call, line 37 of the script:
axis 0 of "input_signal" and axis 0 of "sbp_dbp" are dynamic, both labelled
"batch_size". -/
def exportDynamicAxes : List (String × List (Nat × String)) :=
  [("input_signal", [(0, "batch_size")]), ("sbp_dbp", [(0, "batch_size")])]

/-- Observable steps of a run: the prints, the five conversion steps, and
the two file-touching operations (`loadParameters` reads the checkpoint
path, `exportGraph` writes the output path). -/
inductive Event where
  | printLine : String → Event
  | instantiateModel : Event
  | loadParameters : String → Event
  | setEval : Event
  | buildDummyInput : Shape → Event
  | exportGraph : String → Event
deriving DecidableEq, Repr

/-- Whether a step touches the filesystem. -/
def isFileIOEvent : Event → Bool
  | Event.loadParameters _ => true
  | Event.exportGraph _ => true
  | _ => false

/-- The ways a run of the script can fail; each corresponds to an uncaught
framework exception (spec error taxonomy, categories (b) and (c)). -/
inductive ConvertError where
  | checkpointUnreadable
  | shapeMismatch
  | exportTraceFailure
  | outputUnwritable
deriving DecidableEq, Repr

/-- Final status of the process: normal exit, or termination by an uncaught
error. -/
inductive ConvertResult where
  | ok
  | err : ConvertError → ConvertResult
deriving DecidableEq, Repr

/-- The externally observable outcome of a run: the events it performed (in
order), the artifact written to the output path (if any), and how the
process ended. -/
structure ConvertOutcome where
  events : List Event
  written : Option ExportedGraph
  result : ConvertResult
deriving DecidableEq, Repr

/-- The environment a run executes in: which checkpoint paths are readable
(and the state dict stored there, seen as name-to-shape), and which output
paths are writable. -/
structure Env where
  checkpoints : List (String × StateDict)
  writable : List String
deriving DecidableEq, Repr

/-- Modelled from the spec: `torch.load` reads the framework-native
serialized parameter dictionary at the given path, failing when "the
checkpoint path is unreadable". -/
def lookupCheckpoint : List (String × StateDict) → String → Option StateDict
  | [], _ => none
  | e :: rest, p => if e.1 = p then some e.2 else lookupCheckpoint rest p

/-- The usage line printed by the `__main__` block, line 43. -/
def usageLine : String := "Usage: python convert.py <input.pth> <output.onnx>"

/-- Embedding of `convert_pytorch(pth_path, onnx_path)`, lines 17-39:
print "Loading ...", instantiate `SimplePPGModel`, `load_state_dict
(torch.load(pth_path))` (fails if the path is unreadable or the shapes do
not match the architecture; `load_state_dict` with default `strict=True`
requires the loaded dict to match the model's parameters exactly),
`model.eval()`, build `dummy_input = torch.randn(1, 1, 120)` (its random
values are the `randnValues` argument), print "Exporting to ONNX...", call
`torch.onnx.export` (fails if the output path is unwritable), print the
success line. -/
def convert_pytorch (pthPath onnxPath : String) (env : Env)
    (randnValues : List Int) : ConvertOutcome :=
  let e1 := [Event.printLine ("Loading " ++ pthPath ++ "..."),
             Event.instantiateModel,
             Event.loadParameters pthPath]
  match lookupCheckpoint env.checkpoints pthPath with
  | none =>
    { events := e1, written := none,
      result := ConvertResult.err ConvertError.checkpointUnreadable }
  | some sd =>
    if sd = simplePPGStateDictShapes then
      let e2 := e1 ++ [Event.setEval,
                       Event.buildDummyInput [1, 1, 120],
                       Event.printLine "Exporting to ONNX..."]
      match onnxExport simplePPGForwardShape [1, 1, 120] randnValues
          "input_signal" "sbp_dbp" exportDynamicAxes with
      | none =>
        { events := e2, written := none,
          result := ConvertResult.err ConvertError.exportTraceFailure }
      | some g =>
        if onnxPath ∈ env.writable then
          { events := e2 ++ [Event.exportGraph onnxPath,
              Event.printLine ("✅ Success! Saved to " ++ onnxPath)],
            written := some g, result := ConvertResult.ok }
        else
          { events := e2, written := none,
            result := ConvertResult.err ConvertError.outputUnwritable }
    else
      { events := e1, written := none,
        result := ConvertResult.err ConvertError.shapeMismatch }

/-- Embedding of the `__main__` block, lines 41-45: with fewer than three
entries in `sys.argv` (i.e. fewer than two positional arguments) print the
usage line and exit normally; otherwise run `convert_pytorch` on argv[1]
and argv[2]. -/
def mainScript (argv : List String) (env : Env)
    (randnValues : List Int) : ConvertOutcome :=
  if argv.length < 3 then
    { events := [Event.printLine usageLine], written := none,
      result := ConvertResult.ok }
  else
    convert_pytorch (argv.getD 1 "") (argv.getD 2 "") env randnValues

/-- Whether a concrete runtime input shape is admitted by a list of
declared dimensions: a dynamic dimension accepts any size, a fixed one only
its declared size. -/
def dimAccepts : Dim → Nat → Bool
  | Dim.fixed n, m => n = m
  | Dim.dyn _, _ => true

/-- Whether a concrete runtime shape is admitted by the declared dimensions
of an exported tensor slot (same rank, every dimension admitted). -/
def dimsAccept : List Dim → Shape → Bool
  | [], [] => true
  | d :: ds, n :: ns => dimAccepts d n && dimsAccept ds ns
  | _, _ => false

/-- Serialization of the exported artifact to file contents (the artifact
written to disk is a non-trivial encoding of the graph's interface). -/
def serializeDim : Dim → String
  | Dim.fixed n => toString n
  | Dim.dyn s => s

/-- File contents of the written artifact. -/
def serializeGraph (g : ExportedGraph) : String :=
  "onnx graph; input " ++ g.inputName ++ " : "
    ++ String.intercalate " x " (g.inputDims.map serializeDim)
    ++ "; output " ++ g.outputName ++ " : "
    ++ String.intercalate " x " (g.outputDims.map serializeDim)

/-- The conversion steps of an outcome, with the prints filtered out. -/
def stepEvents (o : ConvertOutcome) : List Event :=
  o.events.filter (fun e =>
    match e with
    | Event.printLine _ => false
    | _ => true)

/-- The artifact every successful run exports: input "input_signal" with
dimensions (dynamic batch, 1, 120), output "sbp_dbp" with dimensions
(dynamic batch, 2). -/
def theExportedGraph : ExportedGraph :=
  { inputName := "input_signal"
    outputName := "sbp_dbp"
    inputDims := [Dim.dyn "batch_size", Dim.fixed 1, Dim.fixed 120]
    outputDims := [Dim.dyn "batch_size", Dim.fixed 2] }

example : simplePPGForwardShape [1, 1, 120] = some [1, 2] := by decide

/-- The events of a run that fails at `torch.load` or `load_state_dict`. -/
def loadEvents (pthPath : String) : List Event :=
  [Event.printLine ("Loading " ++ pthPath ++ "..."),
   Event.instantiateModel,
   Event.loadParameters pthPath]

/-- The events of a run that reaches the export call. -/
def preExportEvents (pthPath : String) : List Event :=
  loadEvents pthPath ++ [Event.setEval,
                         Event.buildDummyInput [1, 1, 120],
                         Event.printLine "Exporting to ONNX..."]

/-- The events of a successful run. -/
def successEvents (pthPath onnxPath : String) : List Event :=
  preExportEvents pthPath ++ [Event.exportGraph onnxPath,
    Event.printLine ("✅ Success! Saved to " ++ onnxPath)]

lemma onnxExport_eval (v : List Int) :
    onnxExport simplePPGForwardShape [1, 1, 120] v "input_signal" "sbp_dbp"
      exportDynamicAxes = some theExportedGraph := rfl

lemma convert_success_eq (pthPath onnxPath : String) (env : Env)
    (v : List Int)
    (hc : lookupCheckpoint env.checkpoints pthPath
            = some simplePPGStateDictShapes)
    (hw : onnxPath ∈ env.writable) :
    convert_pytorch pthPath onnxPath env v
      = { events := successEvents pthPath onnxPath,
          written := some theExportedGraph,
          result := ConvertResult.ok } := by
  unfold convert_pytorch
  rw [hc]
  simp [onnxExport_eval, hw, successEvents, preExportEvents, loadEvents]

lemma convert_unreadable_eq (pthPath onnxPath : String) (env : Env)
    (v : List Int)
    (hc : lookupCheckpoint env.checkpoints pthPath = none) :
    convert_pytorch pthPath onnxPath env v
      = { events := loadEvents pthPath,
          written := none,
          result := ConvertResult.err ConvertError.checkpointUnreadable } := by
  unfold convert_pytorch
  rw [hc]
  simp [loadEvents]

lemma convert_mismatch_eq (pthPath onnxPath : String) (env : Env)
    (v : List Int) (sd : StateDict)
    (hc : lookupCheckpoint env.checkpoints pthPath = some sd)
    (hne : sd ≠ simplePPGStateDictShapes) :
    convert_pytorch pthPath onnxPath env v
      = { events := loadEvents pthPath,
          written := none,
          result := ConvertResult.err ConvertError.shapeMismatch } := by
  unfold convert_pytorch
  rw [hc]
  simp [hne, loadEvents]

lemma convert_unwritable_eq (pthPath onnxPath : String) (env : Env)
    (v : List Int)
    (hc : lookupCheckpoint env.checkpoints pthPath
            = some simplePPGStateDictShapes)
    (hw : onnxPath ∉ env.writable) :
    convert_pytorch pthPath onnxPath env v
      = { events := preExportEvents pthPath,
          written := none,
          result := ConvertResult.err ConvertError.outputUnwritable } := by
  unfold convert_pytorch
  rw [hc]
  simp [onnxExport_eval, hw, preExportEvents, loadEvents]

/-- Every possible outcome of `convert_pytorch`, by case on the
environment. -/
lemma convert_cases (pthPath onnxPath : String) (env : Env) (v : List Int) :
    (lookupCheckpoint env.checkpoints pthPath = none
       ∧ convert_pytorch pthPath onnxPath env v
           = { events := loadEvents pthPath, written := none,
               result := ConvertResult.err ConvertError.checkpointUnreadable })
    ∨ (∃ sd, lookupCheckpoint env.checkpoints pthPath = some sd
         ∧ sd ≠ simplePPGStateDictShapes
         ∧ convert_pytorch pthPath onnxPath env v
             = { events := loadEvents pthPath, written := none,
                 result := ConvertResult.err ConvertError.shapeMismatch })
    ∨ (lookupCheckpoint env.checkpoints pthPath
         = some simplePPGStateDictShapes
       ∧ onnxPath ∉ env.writable
       ∧ convert_pytorch pthPath onnxPath env v
           = { events := preExportEvents pthPath, written := none,
               result := ConvertResult.err ConvertError.outputUnwritable })
    ∨ (lookupCheckpoint env.checkpoints pthPath
         = some simplePPGStateDictShapes
       ∧ onnxPath ∈ env.writable
       ∧ convert_pytorch pthPath onnxPath env v
           = { events := successEvents pthPath onnxPath,
               written := some theExportedGraph,
               result := ConvertResult.ok }) := by
  cases hc : lookupCheckpoint env.checkpoints pthPath with
  | none =>
    exact Or.inl ⟨rfl, convert_unreadable_eq pthPath onnxPath env v hc⟩
  | some sd =>
    by_cases hsd : sd = simplePPGStateDictShapes
    · subst hsd
      by_cases hw : onnxPath ∈ env.writable
      · exact Or.inr (Or.inr (Or.inr
          ⟨rfl, hw, convert_success_eq pthPath onnxPath env v hc hw⟩))
      · exact Or.inr (Or.inr (Or.inl
          ⟨rfl, hw, convert_unwritable_eq pthPath onnxPath env v hc hw⟩))
    · exact Or.inr (Or.inl
        ⟨sd, rfl, hsd, convert_mismatch_eq pthPath onnxPath env v sd hc hsd⟩)

/-- A run writes an artifact exactly when the checkpoint matches the
architecture and the output path is writable, and that artifact is
`theExportedGraph`. -/
lemma convert_written_iff (pthPath onnxPath : String) (env : Env)
    (v : List Int) (g : ExportedGraph) :
    (convert_pytorch pthPath onnxPath env v).written = some g
      ↔ (lookupCheckpoint env.checkpoints pthPath
           = some simplePPGStateDictShapes
         ∧ onnxPath ∈ env.writable ∧ g = theExportedGraph) := by
  constructor
  · intro h
    rcases convert_cases pthPath onnxPath env v with
      ⟨_, he⟩ | ⟨sd, _, _, he⟩ | ⟨_, _, he⟩ | ⟨hc, hw, he⟩ <;> rw [he] at h
    · exact absurd h (by simp)
    · exact absurd h (by simp)
    · exact absurd h (by simp)
    · exact ⟨hc, hw, by simpa using h.symm⟩
  · rintro ⟨hc, hw, rfl⟩
    rw [convert_success_eq pthPath onnxPath env v hc hw]

/-- A concrete environment with one matching checkpoint and one writable
output path, used to instantiate hypotheses of the theorems below. -/
def envGood : Env :=
  { checkpoints := [("model.pth", simplePPGStateDictShapes)],
    writable := ["model.onnx"] }

/-- A state dict with a mismatched parameter shape (a conv kernel of width
5 instead of 3). -/
def badStateDict : StateDict :=
  [("conv.weight", [16, 1, 5]), ("conv.bias", [16]),
   ("fc.weight", [2, 16 * 118]), ("fc.bias", [2])]

/-- A concrete environment whose checkpoint has a mismatched parameter
shape. -/
def envBad : Env :=
  { checkpoints := [("model.pth", badStateDict)],
    writable := ["model.onnx"] }

/-- C1: For every valid conversion (one whose run writes an artifact), the
export call binds the input tensor to the name "input_signal" and the
output tensor to the name "sbp_dbp", and declares the first (batch) axis of
each of these two tensors as a variable-length dynamic axis. -/
theorem export_binds_names_and_dynamic_batch
    (pthPath onnxPath : String) (env : Env) (v : List Int) (g : ExportedGraph)
    (h : (convert_pytorch pthPath onnxPath env v).written = some g) :
    g.inputName = "input_signal" ∧ g.outputName = "sbp_dbp"
      ∧ g.inputDims.head? = some (Dim.dyn "batch_size")
      ∧ g.outputDims.head? = some (Dim.dyn "batch_size") := by
  rcases (convert_written_iff pthPath onnxPath env v g).mp h with ⟨_, _, rfl⟩
  exact ⟨rfl, rfl, rfl, rfl⟩

theorem export_binds_names_and_dynamic_batch_witness :
    theExportedGraph.inputName = "input_signal"
      ∧ theExportedGraph.outputName = "sbp_dbp"
      ∧ theExportedGraph.inputDims.head? = some (Dim.dyn "batch_size")
      ∧ theExportedGraph.outputDims.head? = some (Dim.dyn "batch_size") :=
  export_binds_names_and_dynamic_batch "model.pth" "model.onnx" envGood []
    theExportedGraph (by decide)

/-- C2: `convert(checkpoint_path, output_path)` performs exactly the
following steps in this order: instantiate the fixed hard-coded model
architecture, load the checkpoint's parameters into it, set inference
(non-training) mode, build one representative input of shape (1,1,120), and
then export the traced graph. -/
theorem convert_steps_in_order
    (pthPath onnxPath : String) (env : Env) (v : List Int)
    (hc : lookupCheckpoint env.checkpoints pthPath
            = some simplePPGStateDictShapes)
    (hw : onnxPath ∈ env.writable) :
    stepEvents (convert_pytorch pthPath onnxPath env v)
      = [Event.instantiateModel, Event.loadParameters pthPath,
         Event.setEval, Event.buildDummyInput [1, 1, 120],
         Event.exportGraph onnxPath] := by
  rw [convert_success_eq pthPath onnxPath env v hc hw]
  rfl

theorem convert_steps_in_order_witness :
    stepEvents (convert_pytorch "model.pth" "model.onnx" envGood [])
      = [Event.instantiateModel, Event.loadParameters "model.pth",
         Event.setEval, Event.buildDummyInput [1, 1, 120],
         Event.exportGraph "model.onnx"] :=
  convert_steps_in_order "model.pth" "model.onnx" envGood []
    (by decide) (by decide)

/-- C3: For every checkpoint whose parameter shapes exactly match the
hard-coded architecture and every writable output path, `convert` produces
an output file that exists and is non-empty after it returns. -/
theorem convert_writes_nonempty_output
    (pthPath onnxPath : String) (env : Env) (v : List Int)
    (hc : lookupCheckpoint env.checkpoints pthPath
            = some simplePPGStateDictShapes)
    (hw : onnxPath ∈ env.writable) :
    ∃ g, (convert_pytorch pthPath onnxPath env v).written = some g
       ∧ 0 < (serializeGraph g).length := by
  refine ⟨theExportedGraph, ?_, by decide⟩
  rw [convert_success_eq pthPath onnxPath env v hc hw]

theorem convert_writes_nonempty_output_witness :
    ∃ g, (convert_pytorch "model.pth" "model.onnx" envGood []).written
            = some g
       ∧ 0 < (serializeGraph g).length :=
  convert_writes_nonempty_output "model.pth" "model.onnx" envGood []
    (by decide) (by decide)

/-- C4: The exported artifact's input tensor accepts any batch size along
its first axis, while its non-batch dimensions are fixed: an input with
other than 1 channel or other than 120 samples is rejected by the declared
dimensions of the exported graph. -/
theorem exported_input_any_batch_fixed_other_dims
    (pthPath onnxPath : String) (env : Env) (v : List Int) (g : ExportedGraph)
    (h : (convert_pytorch pthPath onnxPath env v).written = some g) :
    (∀ b, dimsAccept g.inputDims [b, 1, 120] = true)
      ∧ ∀ b c l, c ≠ 1 ∨ l ≠ 120 →
          dimsAccept g.inputDims [b, c, l] = false := by
  rcases (convert_written_iff pthPath onnxPath env v g).mp h with ⟨_, _, rfl⟩
  constructor
  · intro b
    rfl
  · intro b c l hne
    rcases hne with h1 | h2
    · have hd : decide (1 = c) = false := decide_eq_false (fun h => h1 h.symm)
      simp [theExportedGraph, dimsAccept, dimAccepts, hd]
    · have hd : decide (120 = l) = false := decide_eq_false (fun h => h2 h.symm)
      simp [theExportedGraph, dimsAccept, dimAccepts, hd]

theorem exported_input_any_batch_fixed_other_dims_witness :
    dimsAccept theExportedGraph.inputDims [7, 1, 120] = true
      ∧ dimsAccept theExportedGraph.inputDims [7, 2, 120] = false :=
  ⟨(exported_input_any_batch_fixed_other_dims "model.pth" "model.onnx"
      envGood [] theExportedGraph (by decide)).1 7,
   (exported_input_any_batch_fixed_other_dims "model.pth" "model.onnx"
      envGood [] theExportedGraph (by decide)).2 7 2 120
     (Or.inl (by decide))⟩

/-- C5: For every valid conversion, the exported graph's declared input
tensor "input_signal" has shape dynamic batch × 1 channel × 120 samples,
and its declared output tensor "sbp_dbp" has shape dynamic batch × 2
values. -/
theorem exported_graph_declared_shapes
    (pthPath onnxPath : String) (env : Env) (v : List Int) (g : ExportedGraph)
    (h : (convert_pytorch pthPath onnxPath env v).written = some g) :
    g.inputName = "input_signal"
      ∧ g.inputDims = [Dim.dyn "batch_size", Dim.fixed 1, Dim.fixed 120]
      ∧ g.outputName = "sbp_dbp"
      ∧ g.outputDims = [Dim.dyn "batch_size", Dim.fixed 2] := by
  rcases (convert_written_iff pthPath onnxPath env v g).mp h with ⟨_, _, rfl⟩
  exact ⟨rfl, rfl, rfl, rfl⟩

theorem exported_graph_declared_shapes_witness :
    theExportedGraph.inputDims
        = [Dim.dyn "batch_size", Dim.fixed 1, Dim.fixed 120]
      ∧ theExportedGraph.outputDims = [Dim.dyn "batch_size", Dim.fixed 2] :=
  ⟨(exported_graph_declared_shapes "model.pth" "model.onnx" envGood []
      theExportedGraph (by decide)).2.1,
   (exported_graph_declared_shapes "model.pth" "model.onnx" envGood []
      theExportedGraph (by decide)).2.2.2⟩

/-- C6: When the program is run with fewer than 2 positional CLI arguments
(i.e. `sys.argv` has fewer than 3 entries, the first being the program
name), it prints a usage line, performs no file I/O, and exits without
error signaling. -/
theorem usage_on_too_few_args (argv : List String) (env : Env)
    (v : List Int) (h : argv.length < 3) :
    mainScript argv env v
        = { events := [Event.printLine usageLine], written := none,
            result := ConvertResult.ok }
      ∧ ∀ e ∈ (mainScript argv env v).events, isFileIOEvent e = false := by
  have hm : mainScript argv env v
      = { events := [Event.printLine usageLine], written := none,
          result := ConvertResult.ok } := by
    unfold mainScript
    rw [if_pos h]
  refine ⟨hm, ?_⟩
  rw [hm]
  intro e he
  simp only [List.mem_singleton] at he
  subst he
  rfl

theorem usage_on_too_few_args_witness :
    mainScript ["convert.py"] envGood []
      = { events := [Event.printLine usageLine], written := none,
          result := ConvertResult.ok } :=
  (usage_on_too_few_args ["convert.py"] envGood [] (by decide)).1

/-- C7: For every checkpoint whose parameter shapes do not match the
hard-coded architecture, `convert` fails before producing a complete output
file: the export step is never reached, so no artifact is written at the
output path. -/
theorem mismatched_checkpoint_fails_before_export
    (pthPath onnxPath : String) (env : Env) (v : List Int) (sd : StateDict)
    (hc : lookupCheckpoint env.checkpoints pthPath = some sd)
    (hne : sd ≠ simplePPGStateDictShapes) :
    (convert_pytorch pthPath onnxPath env v).result
        = ConvertResult.err ConvertError.shapeMismatch
      ∧ (convert_pytorch pthPath onnxPath env v).written = none
      ∧ ∀ p, Event.exportGraph p
               ∉ (convert_pytorch pthPath onnxPath env v).events := by
  rw [convert_mismatch_eq pthPath onnxPath env v sd hc hne]
  refine ⟨rfl, rfl, ?_⟩
  intro p
  simp [loadEvents]

theorem mismatched_checkpoint_fails_before_export_witness :
    (convert_pytorch "model.pth" "model.onnx" envBad []).written = none :=
  (mismatched_checkpoint_fails_before_export "model.pth" "model.onnx"
      envBad [] badStateDict (by decide) (by decide)).2.1

/-- C8: `convert` performs no validation of the checkpoint or output path
before use, and I/O errors (unreadable checkpoint, unwritable output) and
shape-mismatch errors are never caught or translated by the script: the
`__main__` block passes the outcome of `convert_pytorch` through unchanged,
each failure surfaces as the corresponding uncaught error terminating the
process, and a run ends normally exactly when the checkpoint is readable
and matching and the output path is writable. -/
theorem errors_propagate_uncaught
    (a0 pthPath onnxPath : String) (rest : List String) (env : Env)
    (v : List Int) :
    (mainScript (a0 :: pthPath :: onnxPath :: rest) env v
        = convert_pytorch pthPath onnxPath env v)
      ∧ (lookupCheckpoint env.checkpoints pthPath = none →
          (convert_pytorch pthPath onnxPath env v).result
            = ConvertResult.err ConvertError.checkpointUnreadable)
      ∧ (∀ sd, lookupCheckpoint env.checkpoints pthPath = some sd →
          sd ≠ simplePPGStateDictShapes →
          (convert_pytorch pthPath onnxPath env v).result
            = ConvertResult.err ConvertError.shapeMismatch)
      ∧ (lookupCheckpoint env.checkpoints pthPath
            = some simplePPGStateDictShapes →
          onnxPath ∉ env.writable →
          (convert_pytorch pthPath onnxPath env v).result
            = ConvertResult.err ConvertError.outputUnwritable)
      ∧ ((convert_pytorch pthPath onnxPath env v).result = ConvertResult.ok
          ↔ lookupCheckpoint env.checkpoints pthPath
               = some simplePPGStateDictShapes
            ∧ onnxPath ∈ env.writable) := by
  have hm : mainScript (a0 :: pthPath :: onnxPath :: rest) env v
      = convert_pytorch pthPath onnxPath env v := by
    unfold mainScript
    have h3 : ¬ (a0 :: pthPath :: onnxPath :: rest).length < 3 := by
      simp only [List.length_cons]
      omega
    rw [if_neg h3]
    rfl
  refine ⟨hm, ?_, ?_, ?_, ?_⟩
  · intro hc
    rw [convert_unreadable_eq pthPath onnxPath env v hc]
  · intro sd hc hne
    rw [convert_mismatch_eq pthPath onnxPath env v sd hc hne]
  · intro hc hw
    rw [convert_unwritable_eq pthPath onnxPath env v hc hw]
  · constructor
    · intro hok
      rcases convert_cases pthPath onnxPath env v with
        ⟨_, he⟩ | ⟨sd, _, _, he⟩ | ⟨_, _, he⟩ | ⟨hc, hw, he⟩
      · rw [he] at hok
        simp at hok
      · rw [he] at hok
        simp at hok
      · rw [he] at hok
        simp at hok
      · exact ⟨hc, hw⟩
    · rintro ⟨hc, hw⟩
      rw [convert_success_eq pthPath onnxPath env v hc hw]

theorem errors_propagate_uncaught_witness :
    (convert_pytorch "missing.pth" "model.onnx" envGood []).result
      = ConvertResult.err ConvertError.checkpointUnreadable :=
  (errors_propagate_uncaught "convert.py" "missing.pth" "model.onnx" []
      envGood []).2.1 (by decide)

/-- C9: Two runs of `convert` with the same checkpoint and architecture
produce identical outcomes, and the exported artifact does not depend on
the random values of the representative input tensor — only on its shape
and dtype. -/
theorem export_independent_of_random_values
    (pthPath onnxPath : String) (env : Env) (v1 v2 : List Int) :
    convert_pytorch pthPath onnxPath env v1
      = convert_pytorch pthPath onnxPath env v2 := rfl

/-- C10: For every invocation with 3 or more positional CLI arguments, the
program behaves exactly as with 2: only argv[1] is used as the checkpoint
path and argv[2] as the output path; the extra arguments change nothing and
trigger no warning. -/
theorem extra_args_ignored (a0 a1 a2 : String) (rest : List String)
    (env : Env) (v : List Int) :
    mainScript (a0 :: a1 :: a2 :: rest) env v = convert_pytorch a1 a2 env v
      ∧ mainScript (a0 :: a1 :: a2 :: rest) env v
          = mainScript [a0, a1, a2] env v := by
  have hm : mainScript (a0 :: a1 :: a2 :: rest) env v
      = convert_pytorch a1 a2 env v := by
    unfold mainScript
    have h3 : ¬ (a0 :: a1 :: a2 :: rest).length < 3 := by
      simp only [List.length_cons]
      omega
    rw [if_neg h3]
    rfl
  exact ⟨hm, hm.trans rfl⟩
